import Mathlib

/-!
Verification of the conversion-pipeline orchestrator of the st4ck repository.

The Python sources under `src/converter`, `src/conversion-watcher` and
`src/api` are shallowly embedded as executable Lean definitions:
strings are `List Char`, machine floats used for scores/percentages are
modelled as exact rationals, filesystem trees are a mutual inductive, and
every externally observable side effect (database writes, tool invocation,
event publication) is recorded in an explicit effect trace.
-/

/-! ## Backup store (src/converter/backup_manager.py)

A filesystem entry is either a regular file (its byte contents) or a
directory with a named list of children.  `shutil.copytree` is embedded as
the structural copy `copyTree`.
-/

mutual

inductive FSTree where
  | file (content : List Nat)
  | dir (children : FSList)
deriving DecidableEq

inductive FSList where
  | nil
  | cons (name : List Char) (tree : FSTree) (rest : FSList)
deriving DecidableEq

end

mutual

/-- Embedding of `shutil.copytree`: a recursive copy of a tree. -/
def copyTree : FSTree → FSTree
  | .file c => .file c
  | .dir ch => .dir (copyList ch)

def copyList : FSList → FSList
  | .nil => .nil
  | .cons n t rest => .cons n (copyTree t) (copyList rest)

end

mutual

theorem copyTree_eq : ∀ t : FSTree, copyTree t = t
  | .file _ => rfl
  | .dir ch => by rw [copyTree, copyList_eq]

theorem copyList_eq : ∀ l : FSList, copyList l = l
  | .nil => rfl
  | .cons n t rest => by rw [copyList, copyTree_eq, copyList_eq]

end

/-- `shutil.copy2(src_file, dst_dir)` places the file inside the directory,
overwriting a child of the same name. -/
def insertChild : FSList → List Char → FSTree → FSList
  | .nil, n, t => .cons n t .nil
  | .cons m u rest, n, t =>
    if m = n then .cons m t rest else .cons m u (insertChild rest n t)

/-- `BackupManager.create_backup(book_name, source_path)`:
returns `None` when the source path does not exist; otherwise creates the
fresh directory `{book_name}_{timestamp}` and recursively copies the source
into it (`copytree` for a directory source, `copy2` into the new directory
for a file source).  The source is given as its name and tree, `none` when
the path does not exist. -/
def create_backup (book_name timestamp : List Char)
    (source : Option (List Char × FSTree)) : Option (List Char × FSTree) :=
  match source with
  | none => none
  | some (srcName, t) =>
    let backupName := book_name ++ [Char.ofNat 95] ++ timestamp
    match t with
    | .dir _ => some (backupName, copyTree t)
    | .file c => some (backupName, .dir (.cons srcName (copyTree (.file c)) .nil))

/-- `BackupManager.restore_from_backup(backup_path, target_path)`:
returns `False` when the backup path does not exist; otherwise runs
`target.mkdir(parents=True, exist_ok=True)` — which raises
`FileExistsError` when a regular file occupies the target path
(`exist_ok` only tolerates an existing *directory*), caught by the
handler, so the function returns `False` with the target unchanged —
and then, for a directory backup, removes the target (`rmtree`) and
copies the backup over it (`copytree`); for a file backup `copy2` drops
the file into the target directory.  Returns the success flag and the
resulting target tree. -/
def restore_from_backup (backup : Option (List Char × FSTree))
    (target : Option FSTree) : Bool × Option FSTree :=
  match backup with
  | none => (false, target)
  | some (backupName, t) =>
    match target with
    | some (.file _) => (false, target)
    | some (.dir tch) =>
      (match t with
        | .dir _ => (true, some (copyTree t))
        | .file c =>
          (true, some (.dir (insertChild tch backupName (copyTree (.file c))))))
    | none =>
      (match t with
        | .dir _ => (true, some (copyTree t))
        | .file c =>
          (true, some (.dir (insertChild .nil backupName (copyTree (.file c))))))

/-- C5 counterexample: when a regular file occupies the target path,
restoring the snapshot of a source directory does not reproduce the source
there — `target.mkdir(exist_ok=True)` raises `FileExistsError`, restore
returns `False`, and the target is left unchanged. -/
theorem backup_restore_file_target_counterexample :
    restore_from_backup
      (create_backup "Book".toList "20240101_000000".toList
        (some ("Book".toList,
          FSTree.dir (.cons "01.mp3".toList (FSTree.file [1]) .nil))))
      (some (FSTree.file [7]))
      = (false, some (FSTree.file [7])) ∧
    restore_from_backup
      (create_backup "Book".toList "20240101_000000".toList
        (some ("Book".toList,
          FSTree.dir (.cons "01.mp3".toList (FSTree.file [1]) .nil))))
      (some (FSTree.file [7]))
      ≠ (true, some (FSTree.dir (.cons "01.mp3".toList (FSTree.file [1]) .nil))) := by
  decide

/-- C5 (amended): for every existing source directory, restoring the
snapshot produced by `create_backup` onto any target path that is a
directory or does not yet exist yields exactly the original source tree
(same names, sizes and contents), with any pre-existing directory contents
at the target removed first; when a regular file occupies the target path
the restore fails closed, returning `False` and leaving the target
unchanged. -/
theorem backup_restore_round_trip (book_name timestamp srcName : List Char)
    (ch tch : FSList) (c : List Nat) :
    restore_from_backup
      (create_backup book_name timestamp (some (srcName, FSTree.dir ch)))
      (some (FSTree.dir tch)) = (true, some (FSTree.dir ch)) ∧
    restore_from_backup
      (create_backup book_name timestamp (some (srcName, FSTree.dir ch)))
      none = (true, some (FSTree.dir ch)) ∧
    restore_from_backup
      (create_backup book_name timestamp (some (srcName, FSTree.dir ch)))
      (some (FSTree.file c)) = (false, some (FSTree.file c)) := by
  refine ⟨?_, ?_, ?_⟩ <;>
    simp only [create_backup, restore_from_backup, copyTree, copyList_eq]

/-! ## Progress inferencer (src/conversion-watcher/watcher.py)

One poll of `ConversionTracker.update_conversion_tracking` is embedded as a
pure function from the observed directory state (top-level entries of the
merge directory, per-book recursive file listings of the untagged
directory) and the pre-existing tracking row to the row that the poll
writes.  Timestamp parsing is abstracted into the elapsed seconds since the
existing row's `created_at`.
-/

def mp3Suffix : List Char := ".mp3".toList

def m4bSuffix : List Char := ".m4b".toList

def convertingSuffix : List Char := "-converting.m4b".toList

def finishedSuffix : List Char := "-finished.m4b".toList

def tmpfilesSuffix : List Char := "-tmpfiles".toList

/-- One top-level entry of the merge directory: a book sub-folder with the
names of the entries inside it, or a direct file. -/
inductive MergeEntry where
  | dir (name : List Char) (entries : List (List Char))
  | file (name : List Char)
deriving DecidableEq

/-- `ConversionTracker.get_merge_files_count`: counts `.mp3` names directly
in the merge directory plus those one level inside each book sub-folder —
a global count over all books. -/
def get_merge_files_count (merge : List MergeEntry) : Nat :=
  (merge.map (fun e =>
    match e with
    | .dir _ entries => (entries.filter (fun f => mp3Suffix.isSuffixOf f)).length
    | .file n => if mp3Suffix.isSuffixOf n then 1 else 0)).sum

/-- One sub-folder of the untagged directory: its name and the names of all
files below it in `os.walk` order. -/
structure UntaggedFolder where
  name : List Char
  files : List (List Char)
deriving DecidableEq

/-- `ConversionTracker.find_converting_file`: first file (walk order) whose
name ends with the in-progress marker `-converting.m4b`. -/
def find_converting_file (f : UntaggedFolder) : Option (List Char) :=
  f.files.find? (fun x => convertingSuffix.isSuffixOf x)

/-- `ConversionTracker.has_finished_files`. -/
def has_finished_files (f : UntaggedFolder) : Bool :=
  f.files.any (fun x => finishedSuffix.isSuffixOf x)

/-- `ConversionTracker.get_converted_files_count`: `.m4b` files that do not
carry the `-converting` marker (the `-finished` ones count). -/
def get_converted_files_count (f : UntaggedFolder) : Nat :=
  (f.files.filter (fun x =>
    m4bSuffix.isSuffixOf x && !(convertingSuffix.isSuffixOf x))).length

/-- `ConversionTracker.extract_book_name_from_folder`: strips a trailing
`-tmpfiles` (9 characters). -/
def extract_book_name_from_folder (n : List Char) : List Char :=
  if tmpfilesSuffix.isSuffixOf n then n.take (n.length - 9) else n

/-- `ConversionTracker.calculate_eta`: linear extrapolation from the
progress percentage and the elapsed seconds since the tracking row was
created; `int()` truncation is `Int.floor` on the non-negative accepted
values. -/
def calculate_eta (progress_percentage : ℚ) (elapsed_seconds : ℚ) : Option ℤ :=
  if progress_percentage ≤ 0 ∨ 100 ≤ progress_percentage then none
  else
    let estimated_total_seconds := elapsed_seconds / (progress_percentage / 100)
    let remaining_seconds := estimated_total_seconds - elapsed_seconds
    if remaining_seconds < 0 ∨ 86400 * 7 < remaining_seconds then none
    else some ⌊remaining_seconds⌋

/-- The fields of the pre-existing `conversion_tracking` row that the poll
reads: its `total_files` and the seconds elapsed since its `created_at`. -/
structure TrackingRowIn where
  total_files : Nat
  elapsed_seconds : ℚ
deriving DecidableEq

/-- The `conversion_tracking` row written by the poll. -/
structure TrackingRowOut where
  total_files : Nat
  converted_files : Nat
  current_file : Option (List Char)
  status : List Char
  progress_percentage : ℚ
  estimated_eta_seconds : Option ℤ

def sPending : List Char := "pending".toList

def sConverting : List Char := "converting".toList

def sCompleted : List Char := "completed".toList

def sUnknown : List Char := "unknown".toList

def sProcessingFinished : List Char := "Processing finished files...".toList

def sFinalizing : List Char := "Finalizing conversion...".toList

def sStatusUnclear : List Char := "Status unclear - no folder or file count data".toList

/-- The `total_files` determination of the poll, with the code's priority:
live global merge-folder count, else the existing row's non-zero value,
else a recursive count of all `.m4b` files in the book's untagged folder. -/
def poll_total_files (merge : List MergeEntry) (existing : Option TrackingRowIn)
    (book_folder : Option UntaggedFolder) : Nat :=
  let total1 := get_merge_files_count merge
  let total2 :=
    if total1 = 0 then
      match existing with
      | some row => if 0 < row.total_files then row.total_files else 0
      | none => 0
    else total1
  if total2 = 0 then
    match book_folder with
    | some f => (f.files.filter (fun x => m4bSuffix.isSuffixOf x)).length
    | none => 0
  else total2

/-- `ConversionTracker.update_conversion_tracking`: derives the row written
for `book_name` from the merge entries, the untagged folders, the existing
row and the two path arguments the scanner passed. -/
def update_conversion_tracking (merge : List MergeEntry)
    (untagged : List UntaggedFolder) (existing : Option TrackingRowIn)
    (book_name : List Char)
    (merge_folder_path temp_folder_path : Option (List Char)) :
    TrackingRowOut :=
  let book_folder := untagged.find? (fun f =>
    extract_book_name_from_folder f.name == book_name || f.name == book_name)
  let total_files := poll_total_files merge existing book_folder
  let (status, current_file, converted_files, progress_percentage) :
      List Char × Option (List Char) × Nat × ℚ :=
    match book_folder with
    | some f =>
      let converting_file := find_converting_file f
      let hasFinished := has_finished_files f
      let converted := get_converted_files_count f
      let (st, cur) :=
        match converting_file with
        | some cf => (sConverting, some cf)
        | none =>
          if hasFinished then (sConverting, some sProcessingFinished)
          else if 0 < converted then
            if total_files ≤ converted then (sCompleted, (none : Option (List Char)))
            else (sConverting, some sFinalizing)
          else (sPending, none)
      let pct : ℚ := if 0 < total_files then (converted : ℚ) / total_files * 100 else 0
      (st, cur, converted, pct)
    | none =>
      if merge_folder_path = none ∧ temp_folder_path = none then
        if 0 < total_files then (sCompleted, none, total_files, 100)
        else (sUnknown, some sStatusUnclear, 0, 0)
      else (sPending, none, 0, 0)
  let estimated_eta_seconds :=
    match existing with
    | some row =>
      if 0 < progress_percentage then calculate_eta progress_percentage row.elapsed_seconds
      else none
    | none => none
  ⟨total_files, converted_files, current_file, status, progress_percentage,
    estimated_eta_seconds⟩

/-- The row written by the poll state used to refute C8's upper bound: the
merge directory holds one mp3 belonging to another book while the book's
untagged folder already holds two unmarked outputs. -/
def c8PollRow : TrackingRowOut :=
  update_conversion_tracking
    [MergeEntry.dir "Other".toList ["a.mp3".toList]]
    [⟨"Book".toList, ["01.m4b".toList, "02.m4b".toList]⟩]
    none "Book".toList
    (some "/app/auto-m4b/temp/merge".toList)
    (some "/app/auto-m4b/temp/untagged/Book".toList)

/-- C8 counterexample: a reachable poll state writes a tracking row with
`converted_files = 2 > 1 = total_files` (and `progress_percentage = 200`),
because the merge-folder file count is global across books, so the claimed
invariant `converted_files <= total_files` fails. -/
theorem tracking_invariant_counterexample :
    ¬ (c8PollRow.converted_files ≤ c8PollRow.total_files) := by decide

/-- C8 (amended): every tracking row written by a poll satisfies
`0 <= converted_files` and `progress_percentage =
converted_files/total_files*100` when `total_files > 0`, else `0`; the
bound `converted_files <= total_files` is not guaranteed. -/
theorem tracking_row_progress_consistent (merge : List MergeEntry)
    (untagged : List UntaggedFolder) (existing : Option TrackingRowIn)
    (book_name : List Char) (merge_folder_path temp_folder_path : Option (List Char)) :
    0 ≤ ((update_conversion_tracking merge untagged existing book_name
        merge_folder_path temp_folder_path).converted_files : ℚ) ∧
    (update_conversion_tracking merge untagged existing book_name
        merge_folder_path temp_folder_path).progress_percentage =
      (if 0 < (update_conversion_tracking merge untagged existing book_name
          merge_folder_path temp_folder_path).total_files then
        ((update_conversion_tracking merge untagged existing book_name
            merge_folder_path temp_folder_path).converted_files : ℚ) /
          ((update_conversion_tracking merge untagged existing book_name
              merge_folder_path temp_folder_path).total_files : ℚ) * 100
      else 0) := by
  refine ⟨Nat.cast_nonneg _, ?_⟩
  unfold update_conversion_tracking
  dsimp only
  cases hbf : untagged.find? (fun f =>
      extract_book_name_from_folder f.name == book_name || f.name == book_name) with
  | some f =>
    generalize poll_total_files merge existing (some f) = n
    dsimp only
  | none =>
    generalize poll_total_files merge existing none = n
    dsimp only
    split
    · split
      · rename_i h
        rw [div_self (by exact_mod_cast h.ne'), one_mul]
      · rfl
    · split
      · simp
      · rfl

/-- C9: the ETA computation returns `none` whenever the percentage is `<= 0`
or `>= 100`, and whenever the extrapolated remaining time is negative or
above 7 days; any returned value lies in `[0, 604800]` seconds; and no poll
that finds no pre-existing tracking row writes an ETA. -/
theorem eta_bounds :
    (∀ p e : ℚ, p ≤ 0 ∨ 100 ≤ p → calculate_eta p e = none) ∧
    (∀ p e : ℚ, 0 < p → p < 100 →
      (e / (p / 100) - e < 0 ∨ 86400 * 7 < e / (p / 100) - e) →
      calculate_eta p e = none) ∧
    (∀ (p e : ℚ) (v : ℤ), calculate_eta p e = some v → 0 ≤ v ∧ v ≤ 604800) ∧
    (∀ merge untagged book_name mp tp,
      (update_conversion_tracking merge untagged none book_name mp tp).estimated_eta_seconds
        = none) := by
  refine ⟨?_, ?_, ?_, ?_⟩
  · intro p e h
    simp [calculate_eta, h]
  · intro p e h1 h2 h3
    rw [calculate_eta, if_neg (by push_neg; exact ⟨h1, h2⟩), if_pos h3]
  · intro p e v h
    simp only [calculate_eta] at h
    split at h
    · exact absurd h (by simp)
    · split at h
      · exact absurd h (by simp)
      · rename_i hrem
        push_neg at hrem
        obtain ⟨hr0, hr7⟩ := hrem
        obtain rfl : ⌊e / (p / 100) - e⌋ = v := by simpa using h
        constructor
        · exact Int.le_floor.mpr (by exact_mod_cast hr0)
        · calc ⌊e / (p / 100) - e⌋ ≤ ⌊(86400 * 7 : ℚ)⌋ := Int.floor_le_floor hr7
            _ = 604800 := by norm_num
  · intro merge untagged book_name mp tp
    unfold update_conversion_tracking
    dsimp only

/-- Witness for `eta_bounds` at percentage 0: the ETA is `none`. -/
theorem eta_bounds_witness : calculate_eta 0 3600 = none :=
  eta_bounds.1 0 3600 (Or.inl le_rfl)

/-- Witness for `tracking_row_progress_consistent` at the C8 poll state. -/
theorem tracking_row_progress_consistent_witness :
    0 ≤ (c8PollRow.converted_files : ℚ) ∧
    c8PollRow.progress_percentage =
      (if 0 < c8PollRow.total_files then
        (c8PollRow.converted_files : ℚ) / (c8PollRow.total_files : ℚ) * 100
      else 0) :=
  tracking_row_progress_consistent
    [MergeEntry.dir "Other".toList ["a.mp3".toList]]
    [⟨"Book".toList, ["01.m4b".toList, "02.m4b".toList]⟩]
    none "Book".toList
    (some "/app/auto-m4b/temp/merge".toList)
    (some "/app/auto-m4b/temp/untagged/Book".toList)

/-! ## Pipeline orchestrator (src/converter/converter.py)

Identity resolution `ConverterService._find_rss_item_id_by_name` works on
the `rss_items` table, embedded as the list of `(id, title)` rows in row
order.  SQLite's `LIKE` (ASCII case-insensitive, `%`/`_` wildcards) and
Python's `str.replace`/`str.split`/`set` are embedded below; floating-point
similarity scores are compared exactly by cross-multiplication.
-/

/-- ASCII lower-casing: the case folding SQLite's `LIKE` and Python's
`str.lower()` perform on the ASCII titles involved. -/
def toLowerAscii (c : Char) : Char :=
  if 65 ≤ c.toNat ∧ c.toNat ≤ 90 then Char.ofNat (c.toNat + 32) else c

/-- `%` (LIKE wildcard). -/
def percentChar : Char := Char.ofNat 37

/-- `_` (LIKE single-char wildcard / separator replaced by the fuzzy
normalization). -/
def underscoreChar : Char := Char.ofNat 95

/-- SQLite `LIKE` matching, fuelled so that it is structurally recursive;
`fuel` bounds the number of steps and `pattern.length + s.length + 1`
always suffices. -/
def likeMatchFuel : Nat → List Char → List Char → Bool
  | 0, _, _ => false
  | _ + 1, [], s => s.isEmpty
  | fuel + 1, c :: ps, s =>
    if c = percentChar then
      likeMatchFuel fuel ps s ||
        (match s with
          | [] => false
          | _ :: t => likeMatchFuel fuel (c :: ps) t)
    else
      match s with
      | [] => false
      | d :: t =>
        (c == underscoreChar || toLowerAscii c == toLowerAscii d) &&
          likeMatchFuel fuel ps t

/-- `string LIKE pattern` of SQLite. -/
def like_match (pattern s : List Char) : Bool :=
  likeMatchFuel (pattern.length + s.length + 1) pattern s

/-- Python `str.replace(old, new)` (all non-overlapping occurrences, left
to right), fuelled for structural recursion; `s.length + 1` steps always
suffice for the non-empty patterns used. -/
def pyReplaceFuel : Nat → List Char → List Char → List Char → List Char
  | 0, s, _, _ => s
  | fuel + 1, s, pat, rep =>
    match s with
    | [] => []
    | c :: rest =>
      if !pat.isEmpty && pat.isPrefixOf (c :: rest) then
        rep ++ pyReplaceFuel fuel ((c :: rest).drop pat.length) pat rep
      else c :: pyReplaceFuel fuel rest pat rep

/-- Python `s.replace(pat, rep)`. -/
def pyReplace (s pat rep : List Char) : List Char :=
  pyReplaceFuel (s.length + 1) s pat rep

/-- Python's whitespace test for `str.split()`/`str.strip()` on ASCII. -/
def isSpaceChar (c : Char) : Bool :=
  c.toNat == 32 || (decide (9 ≤ c.toNat) && decide (c.toNat ≤ 13))

/-- Python `str.strip()`. -/
def pyStrip (s : List Char) : List Char :=
  ((s.dropWhile (fun c => isSpaceChar c)).reverse.dropWhile
    (fun c => isSpaceChar c)).reverse

/-- Helper of `pySplit`, accumulating the current word reversed. -/
def pySplitAux : List Char → List Char → List (List Char)
  | [], acc => if acc.isEmpty then [] else [acc.reverse]
  | c :: rest, acc =>
    if isSpaceChar c then
      if acc.isEmpty then pySplitAux rest [] else acc.reverse :: pySplitAux rest []
    else pySplitAux rest (c :: acc)

/-- Python `str.split()` with no argument: split on whitespace runs,
discarding empty pieces. -/
def pySplit (s : List Char) : List (List Char) :=
  pySplitAux s []

/-- Python `set(...)` on word lists, as a duplicate-free list (membership
and cardinality are all the code uses). -/
def listDedup : List (List Char) → List (List Char)
  | [] => []
  | x :: xs =>
    let d := listDedup xs
    if d.contains x then d else x :: d

/-- The fuzzy-step normalization of `_find_rss_item_id_by_name`:
`.replace(" - ", " ").replace("_", " ").replace(".", " ").lower().strip()`. -/
def normalize_name (s : List Char) : List Char :=
  pyStrip ((pyReplace (pyReplace (pyReplace s " - ".toList " ".toList)
    [underscoreChar] " ".toList) ".".toList " ".toList).map toLowerAscii)

/-- The word set of a normalized name. -/
def nameWords (s : List Char) : List (List Char) :=
  listDedup (pySplit (normalize_name s))

/-- `|A ∩ B|`: the number of common words of two normalized names. -/
def overlapCount (a b : List Char) : Nat :=
  ((nameWords a).filter (fun w => (nameWords b).contains w)).length

/-- `max(|A|, |B|)` over the two word sets. -/
def overlapMax (a b : List Char) : Nat :=
  max (nameWords a).length (nameWords b).length

/-- The similarity score `|A ∩ B| / max(|A|, |B|)` of the fuzzy step, as an
exact rational. -/
def token_overlap_score (a b : List Char) : ℚ :=
  (overlapCount a b : ℚ) / (overlapMax a b : ℚ)

theorem overlapCount_le_overlapMax (a b : List Char) :
    overlapCount a b ≤ overlapMax a b :=
  le_trans (List.length_filter_le _ _) (le_max_left _ _)

/-- The float comparison `score > 0.3` cross-multiplied: for `c ≤ m`,
`3/10 < c/m` iff `3m < 10c`. -/
theorem threshold_iff (c m : Nat) (hcm : c ≤ m) :
    (3 : ℚ)/10 < (c : ℚ)/(m : ℚ) ↔ 3 * m < 10 * c := by
  rcases Nat.eq_zero_or_pos m with h | h
  · subst h
    obtain rfl : c = 0 := Nat.le_zero.mp hcm
    norm_num
  · rw [div_lt_div_iff₀ (by norm_num) (by exact_mod_cast h)]
    constructor
    · intro hlt
      exact_mod_cast (by push_cast; linarith : ((3 * m : Nat) : ℚ) < ((10 * c : Nat) : ℚ))
    · intro hlt
      have : ((3 * m : Nat) : ℚ) < ((10 * c : Nat) : ℚ) := by exact_mod_cast hlt
      push_cast at this
      linarith

/-- One iteration of the fuzzy best-match loop: `acc` is
`(best_match, best_score)` with the score kept as an exact
numerator/denominator pair; `score > best_score` and `score > 0.3` are the
cross-multiplied comparisons. -/
def fuzzyStep (nb : List (List Char)) (acc : Option Nat × Nat × Nat)
    (it : Nat × List Char) : Option Nat × Nat × Nat :=
  let ni := nameWords it.2
  if !nb.isEmpty && !ni.isEmpty then
    let c := (nb.filter (fun w => ni.contains w)).length
    let m := max nb.length ni.length
    if acc.2.1 * m < c * acc.2.2 && 3 * m < 10 * c then (some it.1, (c, m)) else acc
  else acc

/-- The fuzzy-matching fallback loop of `_find_rss_item_id_by_name`. -/
def fuzzy_match (items : List (Nat × List Char)) (book_name : List Char) :
    Option Nat :=
  (items.foldl (fuzzyStep (nameWords book_name))
    ((none : Option Nat), ((0 : Nat), (1 : Nat)))).1

/-- `ConverterService._find_rss_item_id_by_name`: exact title match, then
`title LIKE '%book%'`, then `book LIKE '%title%'`, then the fuzzy
similarity loop; the first hit wins (`fetchone` returns the first row). -/
def find_rss_item_id_by_name (items : List (Nat × List Char))
    (book_name : List Char) : Option Nat :=
  match items.find? (fun it => it.2 == book_name) with
  | some it => some it.1
  | none =>
    match items.find? (fun it =>
        like_match (percentChar :: book_name ++ [percentChar]) it.2) with
    | some it => some it.1
    | none =>
      match items.find? (fun it =>
          like_match (percentChar :: it.2 ++ [percentChar]) book_name) with
      | some it => some it.1
      | none => fuzzy_match items book_name

/-- The catalog title of the spec's identity-resolution test. -/
def hpTitle : List Char :=
  "Harry Potter and the Sorcerer".toList ++ [Char.ofNat 39] ++ "s Stone".toList

/-- Validity guard of the fuzzy loop (`if book_words and item_words`). -/
def fuzzyValid (book : List Char) (it : Nat × List Char) : Bool :=
  !(nameWords book).isEmpty && !(nameWords it.2).isEmpty

/-- An item "passes" the fuzzy loop's threshold: both word sets are
non-empty and `score > 0.3` (cross-multiplied). -/
def fuzzyPasses (book : List Char) (it : Nat × List Char) : Bool :=
  fuzzyValid book it &&
    decide (3 * overlapMax book it.2 < 10 * overlapCount book it.2)

theorem fuzzyStep_of_not_passes (book : List Char) (acc : Option Nat × Nat × Nat)
    (it : Nat × List Char) (h : fuzzyPasses book it = false) :
    fuzzyStep (nameWords book) acc it = acc := by
  simp only [fuzzyPasses, fuzzyValid, Bool.and_eq_false_iff, decide_eq_false_iff_not,
    not_lt] at h
  simp only [fuzzyStep]
  split
  · rename_i hcond
    rw [if_neg]
    intro hboth
    rw [Bool.and_eq_true] at hboth
    rcases h with h | h
    · rcases h with h | h <;> simp [h] at hcond
    · simp only [overlapMax, overlapCount] at h
      exact absurd (of_decide_eq_true hboth.2) (not_lt.mpr h)
  · rfl

theorem fuzzyStep_updates (book : List Char) (acc : Option Nat × Nat × Nat)
    (it : Nat × List Char) (h2 : acc.2 = (0, 1))
    (hp : fuzzyPasses book it = true) :
    fuzzyStep (nameWords book) acc it
      = (some it.1, (overlapCount book it.2, overlapMax book it.2)) := by
  simp only [fuzzyPasses, fuzzyValid, Bool.and_eq_true, decide_eq_true_eq] at hp
  obtain ⟨⟨hb, hi⟩, hlt⟩ := hp
  simp only [overlapMax, overlapCount] at hlt
  simp only [fuzzyStep]
  rw [if_pos (by simp [hb, hi]), if_pos]
  · simp only [overlapCount, overlapMax]
  · rw [h2, Bool.and_eq_true]
    refine ⟨?_, ?_⟩ <;> simp only [decide_eq_true_eq]
    · omega
    · exact hlt

theorem fuzzyStep_none_of_none (book : List Char) (acc : Option Nat × Nat × Nat)
    (it : Nat × List Char) (h : (fuzzyStep (nameWords book) acc it).1 = none) :
    acc.1 = none := by
  simp only [fuzzyStep] at h
  split at h
  · split at h
    · simp at h
    · exact h
  · exact h

theorem fold_none_of_none (book : List Char) (l : List (Nat × List Char)) :
    ∀ acc : Option Nat × Nat × Nat,
    (l.foldl (fuzzyStep (nameWords book)) acc).1 = none → acc.1 = none := by
  induction l with
  | nil => intro acc h; exact h
  | cons hd t ih =>
    intro acc h
    exact fuzzyStep_none_of_none book acc hd (ih _ h)

theorem fold_none_iff (book : List Char) (l : List (Nat × List Char)) :
    ∀ acc : Option Nat × Nat × Nat, acc.1 = none → acc.2 = (0, 1) →
    ((l.foldl (fuzzyStep (nameWords book)) acc).1 = none ↔
      ∀ it ∈ l, fuzzyPasses book it = false) := by
  induction l with
  | nil => intro acc h1 _; simpa using h1
  | cons hd t ih =>
    intro acc h1 h2
    rw [List.foldl_cons]
    by_cases hp : fuzzyPasses book hd = false
    · rw [fuzzyStep_of_not_passes book acc hd hp, ih acc h1 h2]
      simp [hp]
    · rw [Bool.not_eq_false] at hp
      constructor
      · intro hres
        have hnone := fold_none_of_none book t _ hres
        rw [fuzzyStep_updates book acc hd h2 hp] at hnone
        simp at hnone
      · intro hall
        exact absurd (hall hd (List.mem_cons_self hd t)) (by simp [hp])

/-- The value of a `(numerator, denominator)` score pair. -/
def accQ (p : Nat × Nat) : ℚ := (p.1 : ℚ) / (p.2 : ℚ)

theorem crossLt_iff (a b c d : Nat) (hb : 0 < b) (hd : 0 < d) :
    a * d < c * b ↔ (a : ℚ)/(b : ℚ) < (c : ℚ)/(d : ℚ) := by
  rw [div_lt_div_iff₀ (by exact_mod_cast hb) (by exact_mod_cast hd)]
  exact ⟨fun h => by exact_mod_cast h, fun h => by exact_mod_cast h⟩

theorem crossLe_iff (a b c d : Nat) (hb : 0 < b) (hd : 0 < d) :
    a * d ≤ c * b ↔ (a : ℚ)/(b : ℚ) ≤ (c : ℚ)/(d : ℚ) := by
  rw [div_le_div_iff₀ (by exact_mod_cast hb) (by exact_mod_cast hd)]
  exact ⟨fun h => by exact_mod_cast h, fun h => by exact_mod_cast h⟩

theorem fuzzyStep_eq_or (book : List Char) (acc : Option Nat × Nat × Nat)
    (it : Nat × List Char) :
    (fuzzyStep (nameWords book) acc it = acc ∧
      (fuzzyValid book it = false ∨
        ¬ (acc.2.1 * overlapMax book it.2 < overlapCount book it.2 * acc.2.2) ∨
        ¬ (3 * overlapMax book it.2 < 10 * overlapCount book it.2))) ∨
    (fuzzyStep (nameWords book) acc it
        = (some it.1, (overlapCount book it.2, overlapMax book it.2)) ∧
      acc.2.1 * overlapMax book it.2 < overlapCount book it.2 * acc.2.2 ∧
      3 * overlapMax book it.2 < 10 * overlapCount book it.2 ∧
      fuzzyValid book it = true) := by
  simp only [fuzzyStep, fuzzyValid, overlapCount, overlapMax]
  split
  · rename_i hguard
    split
    · rename_i hcond
      rw [Bool.and_eq_true] at hcond
      right
      exact ⟨rfl, of_decide_eq_true hcond.1, of_decide_eq_true hcond.2, hguard⟩
    · rename_i hcond
      left
      refine ⟨rfl, ?_⟩
      rw [Bool.not_eq_true, Bool.and_eq_false_iff] at hcond
      rcases hcond with h | h
      · exact Or.inr (Or.inl (of_decide_eq_false h))
      · exact Or.inr (Or.inr (of_decide_eq_false h))
  · rename_i hguard
    exact Or.inl ⟨rfl, Or.inl (Bool.not_eq_true _ ▸ hguard)⟩

theorem overlapMax_pos (book : List Char) (it : Nat × List Char)
    (h : fuzzyValid book it = true) : 0 < overlapMax book it.2 := by
  simp only [fuzzyValid, Bool.and_eq_true] at h
  have h1 : nameWords book ≠ [] := fun hnil => by simp [hnil] at h
  exact lt_of_lt_of_le (List.length_pos.mpr h1) (le_max_left _ _)

theorem fold_max (book : List Char) (l : List (Nat × List Char)) :
    ∀ acc : Option Nat × Nat × Nat, 0 < acc.2.2 →
    0 < (l.foldl (fuzzyStep (nameWords book)) acc).2.2 ∧
    accQ acc.2 ≤ accQ (l.foldl (fuzzyStep (nameWords book)) acc).2 ∧
    ∀ it ∈ l, fuzzyPasses book it = true →
      token_overlap_score book it.2 ≤ accQ (l.foldl (fuzzyStep (nameWords book)) acc).2 := by
  induction l with
  | nil => intro acc h; exact ⟨h, le_refl _, by simp⟩
  | cons hd t ih =>
    intro acc hacc
    rw [List.foldl_cons]
    rcases fuzzyStep_eq_or book acc hd with ⟨heq, hneg⟩ | ⟨heq, hbetter, hthr, hvalid⟩
    · rw [heq]
      obtain ⟨hpos, hle, hmax⟩ := ih acc hacc
      refine ⟨hpos, hle, ?_⟩
      intro it hin hp
      rcases List.mem_cons.mp hin with rfl | hin'
      · -- the head passed the threshold but was not better than the best
        have hmpos : 0 < overlapMax book it.2 := by
          apply overlapMax_pos
          simp only [fuzzyPasses, Bool.and_eq_true] at hp
          exact hp.1
        have hnotbetter : overlapCount book it.2 * acc.2.2 ≤ acc.2.1 * overlapMax book it.2 := by
          rcases hneg with h | h | h
          · simp [fuzzyPasses, h] at hp
          · exact le_of_not_lt h
          · simp only [fuzzyPasses, Bool.and_eq_true, decide_eq_true_eq] at hp
            exact absurd hp.2 h
        have hsle := (crossLe_iff (overlapCount book it.2) (overlapMax book it.2)
          acc.2.1 acc.2.2 hmpos hacc).mp hnotbetter
        exact le_trans hsle hle
      · exact hmax it hin' hp
    · have hmpos : 0 < overlapMax book hd.2 := overlapMax_pos book hd hvalid
      rw [heq]
      obtain ⟨hpos, hle, hmax⟩ :=
        ih (some hd.1, (overlapCount book hd.2, overlapMax book hd.2)) hmpos
      refine ⟨hpos, ?_, ?_⟩
      · have hlt := (crossLt_iff acc.2.1 acc.2.2 (overlapCount book hd.2)
          (overlapMax book hd.2) hacc hmpos).mp hbetter
        exact le_trans (le_of_lt hlt) hle
      · intro it hin hp
        rcases List.mem_cons.mp hin with rfl | hin'
        · exact hle
        · exact hmax it hin' hp

theorem fold_result (book : List Char) (l : List (Nat × List Char)) :
    ∀ acc : Option Nat × Nat × Nat,
    (l.foldl (fuzzyStep (nameWords book)) acc = acc) ∨
    (∃ j ∈ l, fuzzyPasses book j = true ∧
      l.foldl (fuzzyStep (nameWords book)) acc
        = (some j.1, (overlapCount book j.2, overlapMax book j.2))) := by
  induction l with
  | nil => intro acc; exact Or.inl rfl
  | cons hd t ih =>
    intro acc
    rw [List.foldl_cons]
    rcases fuzzyStep_eq_or book acc hd with ⟨heq, _⟩ | ⟨heq, _, hthr, hvalid⟩
    · rw [heq]
      rcases ih acc with h | ⟨j, hj, hp, hres⟩
      · exact Or.inl h
      · exact Or.inr ⟨j, List.mem_cons_of_mem _ hj, hp, hres⟩
    · rw [heq]
      rcases ih (some hd.1, (overlapCount book hd.2, overlapMax book hd.2)) with
        h | ⟨j, hj, hp, hres⟩
      · refine Or.inr ⟨hd, List.mem_cons_self _ _, ?_, h⟩
        simp only [fuzzyPasses, hvalid, Bool.true_and, decide_eq_true_eq]
        exact hthr
      · exact Or.inr ⟨j, List.mem_cons_of_mem _ hj, hp, hres⟩

/-- C7: identity resolution tries, in order with the first hit winning,
(1) exact title match, (2) substring (`LIKE`) match in either direction,
(3) token-overlap similarity with score `|A ∩ B| / max(|A|,|B|)`, accepting
the highest-scoring candidate only when the score exceeds 0.3 and otherwise
resolving to no match; against the catalog
`["Harry Potter and the Sorcerer's Stone"]` the query
`"Harry Potter Sorcerer Stone"` resolves and `"Lord of the Rings"` does
not. -/
theorem identity_resolution_spec :
    (∀ (items : List (Nat × List Char)) (book : List Char) (it : Nat × List Char),
      items.find? (fun e => e.2 == book) = some it →
      find_rss_item_id_by_name items book = some it.1) ∧
    (∀ (items : List (Nat × List Char)) (book : List Char) (it : Nat × List Char),
      items.find? (fun e => e.2 == book) = none →
      items.find? (fun e => like_match (percentChar :: book ++ [percentChar]) e.2)
        = some it →
      find_rss_item_id_by_name items book = some it.1) ∧
    (∀ (items : List (Nat × List Char)) (book : List Char) (it : Nat × List Char),
      items.find? (fun e => e.2 == book) = none →
      items.find? (fun e => like_match (percentChar :: book ++ [percentChar]) e.2)
        = none →
      items.find? (fun e => like_match (percentChar :: e.2 ++ [percentChar]) book)
        = some it →
      find_rss_item_id_by_name items book = some it.1) ∧
    (find_rss_item_id_by_name [(1, hpTitle)]
        "Harry Potter Sorcerer Stone".toList = some 1 ∧
      (3 : ℚ)/10 < token_overlap_score "Harry Potter Sorcerer Stone".toList hpTitle) ∧
    (find_rss_item_id_by_name [(1, hpTitle)] "Lord of the Rings".toList = none ∧
      token_overlap_score "Lord of the Rings".toList hpTitle ≤ 3/10) ∧
    (∀ (items : List (Nat × List Char)) (book : List Char),
      items.find? (fun e => e.2 == book) = none →
      items.find? (fun e => like_match (percentChar :: book ++ [percentChar]) e.2)
        = none →
      items.find? (fun e => like_match (percentChar :: e.2 ++ [percentChar]) book)
        = none →
      ((find_rss_item_id_by_name items book = none ↔
          ∀ it ∈ items, fuzzyPasses book it = false) ∧
        ∀ i, find_rss_item_id_by_name items book = some i →
          ∃ j ∈ items, j.1 = i ∧ (3 : ℚ)/10 < token_overlap_score book j.2 ∧
            ∀ it ∈ items, fuzzyValid book it = true →
              token_overlap_score book it.2 ≤ token_overlap_score book j.2)) := by
  refine ⟨?_, ?_, ?_, ⟨by decide, ?_⟩, ⟨by decide, ?_⟩, ?_⟩
  · intro items book it h
    simp only [find_rss_item_id_by_name, h]
  · intro items book it h1 h2
    simp only [find_rss_item_id_by_name, h1, h2]
  · intro items book it h1 h2 h3
    simp only [find_rss_item_id_by_name, h1, h2, h3]
  · rw [token_overlap_score]
    exact (threshold_iff _ _ (overlapCount_le_overlapMax _ _)).mpr (by decide)
  · rw [token_overlap_score]
    exact le_of_not_lt (fun h =>
      absurd ((threshold_iff _ _ (overlapCount_le_overlapMax _ _)).mp h) (by decide))
  · intro items book h1 h2 h3
    have hf : find_rss_item_id_by_name items book = fuzzy_match items book := by
      simp only [find_rss_item_id_by_name, h1, h2, h3]
    constructor
    · rw [hf, fuzzy_match]
      exact fold_none_iff book items (none, (0, 1)) rfl rfl
    · intro i hi
      rw [hf, fuzzy_match] at hi
      rcases fold_result book items ((none : Option Nat), ((0 : Nat), (1 : Nat))) with
        hres | ⟨j, hj, hp, hres⟩
      · rw [hres] at hi
        simp at hi
      · rw [hres] at hi
        simp only [Option.some.injEq] at hi
        have hp' := hp
        simp only [fuzzyPasses, Bool.and_eq_true, decide_eq_true_eq] at hp'
        have hhigh : (3 : ℚ)/10 < token_overlap_score book j.2 := by
          rw [token_overlap_score]
          exact (threshold_iff _ _ (overlapCount_le_overlapMax _ _)).mpr hp'.2
        refine ⟨j, hj, hi, hhigh, ?_⟩
        obtain ⟨hpos, hle, hmax⟩ :=
          fold_max book items ((none : Option Nat), ((0 : Nat), (1 : Nat))) (by norm_num)
        intro it hin hv
        by_cases hpass : fuzzyPasses book it = true
        · have hm := hmax it hin hpass
          rw [hres] at hm
          exact hm
        · have hnt : ¬ (3 * overlapMax book it.2 < 10 * overlapCount book it.2) := by
            intro hc
            apply hpass
            simp only [fuzzyPasses, Bool.and_eq_true, decide_eq_true_eq]
            exact ⟨hv, hc⟩
          have hlow : token_overlap_score book it.2 ≤ 3/10 := by
            rw [token_overlap_score]
            exact le_of_not_lt (fun hlt =>
              hnt ((threshold_iff _ _ (overlapCount_le_overlapMax _ _)).mp hlt))
          exact le_trans hlow (le_of_lt hhigh)

/-- Witness for `identity_resolution_spec`: an exact title match resolves
to that row's id. -/
theorem identity_resolution_spec_witness :
    find_rss_item_id_by_name [(5, "The Hobbit".toList)] "The Hobbit".toList
      = some 5 :=
  identity_resolution_spec.1 [(5, "The Hobbit".toList)] "The Hobbit".toList
    (5, "The Hobbit".toList) (by decide)

/-! ## Orchestrator event handlers (src/converter/converter.py)

`ConverterService.handle_download_complete` and
`ConverterService.handle_retry_conversion` are embedded as functions from
an environment — the catalog rows plus the outcome of every external call
the handler makes (path-existence checks, `create_backup`,
`restore_from_backup`, the conversion tool) — to the list of externally
observable side effects, in order.  Logging (`logger`, `log_to_api`) is
not an effect the spec tracks.
-/

def sFailed : List Char := "failed".toList

def sProcessing : List Char := "processing".toList

def chConversionComplete : List Char := "audiobook:conversion_complete".toList

def chConversionFailed : List Char := "audiobook:conversion_failed".toList

def outputPathConst : List Char := "/converted".toList

/-- A published event's JSON payload (absent keys are `none`). -/
structure EventPayload where
  book_name : List Char
  rss_item_id : Option Nat
  status : List Char
  error_message : Option (List Char)
  timestamp : ℚ
deriving DecidableEq

/-- The externally observable side effects of the orchestrator. -/
inductive Effect where
  | create_backup (book_name source_path : List Char)
  | track_backup_usage (book_name backup_path : List Char) (rss_item_id : Nat)
  | update_job_status (book_name status : List Char) (rss_item_id : Nat)
      (error_message : Option (List Char))
  | invoke_tool (input_path output_path book_name : List Char)
  | increment_backup_usage (book_name : List Char)
  | restore_backup (backup_path target_path : List Char)
  | publish (channel : List Char) (payload : EventPayload)
deriving DecidableEq

/-- The environment of one handler invocation: catalog rows and the results
of the external calls the handler makes.  `db_backup_path` is the persisted
pointer `_get_backup_path` reads (rss_items.conversion_backup_path, falling
back to conversion_jobs.backup_path); `backup_dir_entries` are the entries
of the backup store root in `iterdir()` order, with their `is_dir()` flag;
`now` is `time.time()`. -/
structure ConvEnv where
  rss_items : List (Nat × List Char)
  source_exists_first : Bool
  source_exists_after_wait : Bool
  backup_result : Option (List Char)
  restore_result : Bool
  conversion_result : Bool
  db_backup_path : Option (List Char)
  backup_dir_exists : Bool
  backup_dir_entries : List (List Char × Bool)
  now : ℚ

/-- `download_complete` message fields (absent keys are `none`). -/
structure DownloadMsg where
  book_name : Option (List Char)
  path : Option (List Char)
  rss_item_id : Option Nat

/-- `retry_conversion` message fields. -/
structure RetryMsg where
  book_name : Option (List Char)
  rss_item_id : Option Nat

/-- Python truthiness of `if rss_item_id:` — the effects guarded by a
truthy id. -/
def ifRss (rss_item_id : Option Nat) (fx : Nat → List Effect) : List Effect :=
  match rss_item_id with
  | some r => if r ≠ 0 then fx r else []
  | none => []

/-- The id-resolution prelude of `handle_download_complete`: keep a truthy
id from the message, otherwise resolve by name, normalizing a falsy
resolution result to `None`. -/
def resolve_rss_item_id (env : ConvEnv) (msg_rss : Option Nat)
    (book_name : List Char) : Option Nat :=
  match msg_rss with
  | some r =>
    if r ≠ 0 then some r
    else
      match find_rss_item_id_by_name env.rss_items book_name with
      | some i => if i = 0 then none else some i
      | none => none
  | none =>
    match find_rss_item_id_by_name env.rss_items book_name with
    | some i => if i = 0 then none else some i
    | none => none

/-- `ConverterService._perform_conversion`: job-status transitions (gated
on a truthy id), the tool invocation, and on success the backup-usage
increment; returns the tool's success flag with the effect list. -/
def perform_conversion (env : ConvEnv) (book_name source_path : List Char)
    (rss_item_id : Option Nat) : Bool × List Effect :=
  let pre := ifRss rss_item_id
    (fun r => [Effect.update_job_status book_name sProcessing r none])
  let inv := [Effect.invoke_tool source_path outputPathConst book_name]
  if env.conversion_result then
    (true, pre ++ inv ++
      ifRss rss_item_id (fun r => [Effect.update_job_status book_name sCompleted r none]) ++
      [Effect.increment_backup_usage book_name])
  else
    (false, pre ++ inv ++
      ifRss rss_item_id (fun r => [Effect.update_job_status book_name sFailed r
        (some "Conversion process failed".toList)]))

/-- The tail of `handle_download_complete` once the backup has been
created: usage tracking, the conversion, and the result event (each gated
on a truthy id). -/
def after_backup (env : ConvEnv) (book_name source_path backup_path : List Char)
    (rss : Option Nat) : List Effect :=
  let res := perform_conversion env book_name source_path rss
  ifRss rss (fun r => [Effect.track_backup_usage book_name backup_path r]) ++
  res.2 ++
  (if res.1 then
    ifRss rss (fun r => [Effect.publish chConversionComplete
      ⟨book_name, some r, sCompleted, none, env.now⟩])
  else
    ifRss rss (fun r => [Effect.publish chConversionFailed
      ⟨book_name, some r, sFailed, some "Conversion failed".toList, env.now⟩]))

/-- `ConverterService.handle_download_complete`. -/
def handle_download_complete (env : ConvEnv) (msg : DownloadMsg) : List Effect :=
  match msg.book_name, msg.path with
  | some book_name, some source_path =>
    if book_name.isEmpty || source_path.isEmpty then []
    else
      let rss := resolve_rss_item_id env msg.rss_item_id book_name
      if !env.source_exists_first && !env.source_exists_after_wait then []
      else
        Effect.create_backup book_name source_path ::
        (match env.backup_result with
          | none => []
          | some backup_path => after_backup env book_name source_path backup_path rss)
  | _, _ => []

/-- `ConverterService._find_backup_in_filesystem`: the first entry of the
backup store (in `iterdir()` order) that is a directory whose name starts
with the book name; returned as `{BACKUP_PATH}/{name}`. -/
def find_backup_in_filesystem (env : ConvEnv) (book_name : List Char) :
    Option (List Char) :=
  if !env.backup_dir_exists then none
  else
    match env.backup_dir_entries.find? (fun e => e.2 && book_name.isPrefixOf e.1) with
    | some e => some ("/backups/".toList ++ e.1)
    | none => none

/-- The tail of `handle_retry_conversion` once a backup path was located:
the destructive restore over the expected source location, then the
conversion and result event. -/
def after_restore (env : ConvEnv) (book_name bp : List Char)
    (rss_item_id : Nat) : List Effect :=
  let source_path := "/toMerge/".toList ++ book_name
  Effect.restore_backup bp source_path ::
  if !env.restore_result then []
  else
    let res := perform_conversion env book_name source_path (some rss_item_id)
    res.2 ++
    (if res.1 then
      [Effect.publish chConversionComplete
        ⟨book_name, some rss_item_id, sCompleted, none, env.now⟩]
    else
      [Effect.publish chConversionFailed
        ⟨book_name, some rss_item_id, sFailed,
          some "Retry conversion failed".toList, env.now⟩])

/-- `ConverterService.handle_retry_conversion`. -/
def handle_retry_conversion (env : ConvEnv) (msg : RetryMsg) : List Effect :=
  match msg.book_name, msg.rss_item_id with
  | some book_name, some rss_item_id =>
    if book_name.isEmpty || rss_item_id == 0 then []
    else
      let backup_path :=
        match env.db_backup_path with
        | some p => some p
        | none => find_backup_in_filesystem env book_name
      (match backup_path with
        | none => []
        | some bp => after_restore env book_name bp rss_item_id)
  | _, _ => []

/-- Job transition to `processing`. -/
def isProcessingTransition : Effect → Bool
  | .update_job_status _ st _ _ => st == sProcessing
  | _ => false

/-- Job transition to `completed`. -/
def isCompletedTransition : Effect → Bool
  | .update_job_status _ st _ _ => st == sCompleted
  | _ => false

/-- Conversion-tool invocation. -/
def isToolInvocation : Effect → Bool
  | .invoke_tool _ _ _ => true
  | _ => false

/-- Any event publication. -/
def isPublishEvent : Effect → Bool
  | .publish _ _ => true
  | _ => false

/-- Any job-status write (any transition of the job row). -/
def isJobStatusWrite : Effect → Bool
  | .update_job_status _ _ _ _ => true
  | _ => false

/-- Backup restoration. -/
def isRestoreBackup : Effect → Bool
  | .restore_backup _ _ => true
  | _ => false

theorem resolve_find_ne_zero (env : ConvEnv) (b : List Char) (r : Nat)
    (h : (match find_rss_item_id_by_name env.rss_items b with
      | some i => if i = 0 then none else some i
      | none => none) = some r) : r ≠ 0 := by
  rcases hf : find_rss_item_id_by_name env.rss_items b with _ | i <;>
    rw [hf] at h <;> dsimp only at h
  · simp at h
  · by_cases hi : i = 0
    · rw [if_pos hi] at h
      simp at h
    · rw [if_neg hi] at h
      injection h with h
      subst h
      exact hi

theorem resolve_rss_item_id_ne_zero (env : ConvEnv) (o : Option Nat)
    (b : List Char) (r : Nat) (h : resolve_rss_item_id env o b = some r) :
    r ≠ 0 := by
  rcases o with _ | r' <;> simp only [resolve_rss_item_id] at h
  · exact resolve_find_ne_zero env b r h
  · by_cases hr : r' ≠ 0
    · rw [if_pos hr] at h
      injection h with h
      subst h
      exact hr
    · rw [if_neg hr] at h
      exact resolve_find_ne_zero env b r h

/-- C2: when the source path exists (at once, or after the one bounded
re-check) but backup creation returns no snapshot path,
`handle_download_complete` aborts after the backup attempt: no transition
to `processing`, no tool invocation, and no event published. -/
theorem backup_fails_closed (env : ConvEnv) (msg : DownloadMsg)
    (book_name source_path : List Char)
    (hb : msg.book_name = some book_name) (hp : msg.path = some source_path)
    (hbne : book_name.isEmpty = false) (hsne : source_path.isEmpty = false)
    (hsrc : env.source_exists_first = true ∨ env.source_exists_after_wait = true)
    (hbk : env.backup_result = none) :
    handle_download_complete env msg = [Effect.create_backup book_name source_path] ∧
    (handle_download_complete env msg).all
      (fun e => !isProcessingTransition e && !isToolInvocation e && !isPublishEvent e)
      = true := by
  have htrace : handle_download_complete env msg
      = [Effect.create_backup book_name source_path] := by
    simp only [handle_download_complete, hb, hp, hbne, hsne, Bool.or_self, hbk]
    rw [if_neg (by simp), if_neg (by rcases hsrc with h | h <;> simp [h])]
  refine ⟨htrace, ?_⟩
  rw [htrace]
  rfl

/-- Witness for `backup_fails_closed`. -/
theorem backup_fails_closed_witness :
    (handle_download_complete
      ⟨[], true, true, none, true, true, none, true, [], 0⟩
      ⟨some "B".toList, some "/toMerge/B".toList, some 7⟩)
      = [Effect.create_backup "B".toList "/toMerge/B".toList] ∧
    (handle_download_complete
      ⟨[], true, true, none, true, true, none, true, [], 0⟩
      ⟨some "B".toList, some "/toMerge/B".toList, some 7⟩).all
      (fun e => !isProcessingTransition e && !isToolInvocation e && !isPublishEvent e)
      = true :=
  backup_fails_closed ⟨[], true, true, none, true, true, none, true, [], 0⟩
    ⟨some "B".toList, some "/toMerge/B".toList, some 7⟩
    "B".toList "/toMerge/B".toList rfl rfl (by decide) (by decide)
    (Or.inl rfl) rfl

/-- The environment used to refute C3: the catalog is empty, so identity
resolution fails; the source exists, the backup succeeds and the tool
succeeds. -/
def c3Env : ConvEnv :=
  ⟨[], true, true, some "/backups/Book_20240101_000000".toList, true, true,
    none, true, [], 0⟩

/-- The `download_complete` message used to refute C3 (no id supplied). -/
def c3Msg : DownloadMsg :=
  ⟨some "Book".toList, some "/toMerge/Book".toList, none⟩

/-- C3 counterexample: a `download_complete` event that reaches the
conversion step (the tool is invoked) with the tool succeeding, but whose
identity resolution failed, publishes no event at all and writes no
job-status transition whatsoever — publication and job writes are gated on
a resolved id. -/
theorem conversion_events_counterexample :
    c3Env.conversion_result = true ∧
    (handle_download_complete c3Env c3Msg).any isToolInvocation = true ∧
    (handle_download_complete c3Env c3Msg).all
      (fun e => !isPublishEvent e && !isJobStatusWrite e) = true := by
  decide

/-- C3 (amended): for every `download_complete` event that reaches the
conversion step, when a catalog id is available (supplied or resolved) the
orchestrator behaves as claimed — on tool success it transitions the job to
`completed`, increments the backup-usage counter and publishes
`conversion_complete`; on failure it transitions to `failed` and publishes
`conversion_failed` — but when identity resolution failed no event is
published and no job transition happens; only the usage counter is still
incremented on success. -/
theorem conversion_outcome_events (env : ConvEnv) (msg : DownloadMsg)
    (book_name source_path bp : List Char)
    (hb : msg.book_name = some book_name) (hp : msg.path = some source_path)
    (hbne : book_name.isEmpty = false) (hsne : source_path.isEmpty = false)
    (hsrc : env.source_exists_first = true ∨ env.source_exists_after_wait = true)
    (hbk : env.backup_result = some bp) :
    (∀ r, resolve_rss_item_id env msg.rss_item_id book_name = some r →
      (env.conversion_result = true →
        Effect.update_job_status book_name sCompleted r none
            ∈ handle_download_complete env msg ∧
        Effect.increment_backup_usage book_name ∈ handle_download_complete env msg ∧
        Effect.publish chConversionComplete
            ⟨book_name, some r, sCompleted, none, env.now⟩
          ∈ handle_download_complete env msg) ∧
      (env.conversion_result = false →
        Effect.update_job_status book_name sFailed r
            (some "Conversion process failed".toList)
          ∈ handle_download_complete env msg ∧
        Effect.publish chConversionFailed
            ⟨book_name, some r, sFailed, some "Conversion failed".toList, env.now⟩
          ∈ handle_download_complete env msg)) ∧
    (resolve_rss_item_id env msg.rss_item_id book_name = none →
      (handle_download_complete env msg).all
        (fun e => !isPublishEvent e && !isJobStatusWrite e) = true ∧
      (env.conversion_result = true →
        Effect.increment_backup_usage book_name ∈ handle_download_complete env msg)) := by
  have htrace : handle_download_complete env msg
      = Effect.create_backup book_name source_path ::
        after_backup env book_name source_path bp
          (resolve_rss_item_id env msg.rss_item_id book_name) := by
    simp only [handle_download_complete, hb, hp, hbne, hsne, hbk]
    rw [if_neg (by simp), if_neg (by rcases hsrc with h | h <;> simp [h])]
  constructor
  · intro r hr
    have hne : r ≠ 0 := resolve_rss_item_id_ne_zero env msg.rss_item_id book_name r hr
    rw [htrace, hr]
    constructor
    · intro hconv
      simp [after_backup, perform_conversion, ifRss, hconv, if_neg, hne]
    · intro hconv
      simp [after_backup, perform_conversion, ifRss, hconv, if_neg, hne]
  · intro hr
    rw [htrace, hr]
    constructor
    · cases hconv : env.conversion_result <;>
        simp [after_backup, perform_conversion, ifRss, hconv, isPublishEvent,
          isJobStatusWrite, isProcessingTransition, isToolInvocation]
    · intro hconv
      simp [after_backup, perform_conversion, ifRss, hconv]

/-- Witness for `conversion_outcome_events`: with id 7 supplied and a
succeeding tool, the `completed` transition, the counter increment and the
`conversion_complete` publication are all in the trace. -/
theorem conversion_outcome_events_witness :
    Effect.update_job_status "B".toList sCompleted 7 none
        ∈ handle_download_complete
          ⟨[], true, true, some "/backups/B_x".toList, true, true, none, true, [], 0⟩
          ⟨some "B".toList, some "/toMerge/B".toList, some 7⟩ ∧
    Effect.increment_backup_usage "B".toList
        ∈ handle_download_complete
          ⟨[], true, true, some "/backups/B_x".toList, true, true, none, true, [], 0⟩
          ⟨some "B".toList, some "/toMerge/B".toList, some 7⟩ ∧
    Effect.publish chConversionComplete ⟨"B".toList, some 7, sCompleted, none, 0⟩
        ∈ handle_download_complete
          ⟨[], true, true, some "/backups/B_x".toList, true, true, none, true, [], 0⟩
          ⟨some "B".toList, some "/toMerge/B".toList, some 7⟩ :=
  ((conversion_outcome_events
    ⟨[], true, true, some "/backups/B_x".toList, true, true, none, true, [], 0⟩
    ⟨some "B".toList, some "/toMerge/B".toList, some 7⟩
    "B".toList "/toMerge/B".toList "/backups/B_x".toList
    rfl rfl (by decide) (by decide) (Or.inl rfl) rfl).1 7 (by decide)).1 rfl

/-- The environment used to refute C4: no persisted pointer, and the backup
store holds a single directory `Bookend` — a name that starts with the book
name `Book` but is not of the form `Book_{timestamp}`. -/
def c4Env : ConvEnv :=
  ⟨[], true, true, none, true, true, none, true, [("Bookend".toList, true)], 0⟩

/-- The `retry_conversion` message used to refute C4. -/
def c4Msg : RetryMsg := ⟨some "Book".toList, some 3⟩

/-- C4 counterexample: with no persisted pointer and no directory named
`Book_*` in the backup store, the claim demands a terminal failure with
nothing restored; but the scan matches any directory whose name merely
starts with the book name (here `Bookend`) and the handler restores it. -/
theorem retry_scan_counterexample :
    (c4Env.backup_dir_entries.all
      (fun e => !(("Book_".toList).isPrefixOf e.1))) = true ∧
    c4Env.db_backup_path = none ∧
    find_backup_in_filesystem c4Env "Book".toList
      = some "/backups/Bookend".toList ∧
    (handle_retry_conversion c4Env c4Msg).any isRestoreBackup = true := by
  decide

/-- C4 (amended): the fallback scan returns the first entry of the backup
store (in directory-iteration order, not most-recent-first) that is a
directory whose name starts with the book name (not necessarily followed by
an underscore); when neither the persisted pointer nor this scan yields a
backup, the retry is a terminal failure — no restore, no tool invocation,
and no event is published. -/
theorem retry_backup_fallback (env : ConvEnv) (book_name : List Char) :
    (∀ e, env.backup_dir_exists = true →
      env.backup_dir_entries.find? (fun e => e.2 && book_name.isPrefixOf e.1)
          = some e →
      find_backup_in_filesystem env book_name = some ("/backups/".toList ++ e.1)) ∧
    (env.backup_dir_exists = false →
      find_backup_in_filesystem env book_name = none) ∧
    (env.backup_dir_entries.find? (fun e => e.2 && book_name.isPrefixOf e.1) = none →
      find_backup_in_filesystem env book_name = none) ∧
    (∀ (msg : RetryMsg) (rss : Nat), msg.book_name = some book_name →
      msg.rss_item_id = some rss →
      env.db_backup_path = none →
      find_backup_in_filesystem env book_name = none →
      handle_retry_conversion env msg = []) := by
  refine ⟨?_, ?_, ?_, ?_⟩
  · intro e hex hfind
    simp [find_backup_in_filesystem, hex, hfind]
  · intro hex
    simp [find_backup_in_filesystem, hex]
  · intro hfind
    simp [find_backup_in_filesystem, hfind]
  · intro msg rss hb hr hdb hfs
    simp only [handle_retry_conversion, hb, hr, hdb, hfs]
    split
    · rfl
    · rfl

/-- Witness for `retry_backup_fallback`: an empty backup store yields no
backup and the retry handler does nothing. -/
theorem retry_backup_fallback_witness :
    handle_retry_conversion
      ⟨[], true, true, none, true, true, none, true, [], 0⟩
      ⟨some "Book".toList, some 3⟩ = [] :=
  (retry_backup_fallback
    ⟨[], true, true, none, true, true, none, true, [], 0⟩ "Book".toList).2.2.2
    ⟨some "Book".toList, some 3⟩ 3 rfl rfl rfl (by decide)

/-! ## Conversion invoker (src/converter/m4b_converter.py and
src/converter/audio_utils.py)

`M4BConverter.convert_audiobook` is embedded as a function from the
environment — existence of the input directory and script, the MP3 files
found, the child process outcome (`none` models a timeout or other raised
exception in `subprocess.run`), existence of the declared output file, and
the ffprobe durations — to its boolean result plus the progress rows and
the job-duration record it writes. -/

/-- The environment of one `convert_audiobook` call. -/
structure ConvertEnv where
  input_dir_exists : Bool
  mp3_files : List (List Char)
  script_exists : Bool
  run_result : Option Int
  output_file_exists : Bool
  source_total_duration : Option ℚ
  converted_duration : Option ℚ

/-- One `conversion_tracking` write performed through
`update_conversion_progress`. -/
structure ProgressUpdate where
  book_name : List Char
  status : List Char
  current_file : Option (List Char)
  progress_percentage : ℚ
  total_files : Nat
  converted_files : Nat
deriving DecidableEq

/-- The duration fields written to the job row by
`_update_conversion_job_duration`. -/
structure DurationRecord where
  source_duration : Option ℚ
  converted_duration : Option ℚ
  validation_passed : Option Bool
deriving DecidableEq

/-- The result of `convert_audiobook`: the returned flag, the progress rows
written, in order, and the duration record if one was written. -/
structure ConvertResult where
  success : Bool
  progress_updates : List ProgressUpdate
  duration_record : Option DurationRecord
deriving DecidableEq

/-- `AudioUtils.validate_conversion_duration`: converted duration within
`tolerance_percent` of the source duration (the interpolated message string
is reduced to its fixed prefix). -/
def validate_conversion_duration (source_duration converted_duration
    tolerance_percent : ℚ) : Bool × List Char :=
  if source_duration ≤ 0 then (false, "Invalid source duration".toList)
  else if converted_duration ≤ 0 then (false, "Invalid converted duration".toList)
  else
    let tolerance_seconds := source_duration * (tolerance_percent / 100)
    let duration_diff := |source_duration - converted_duration|
    if duration_diff ≤ tolerance_seconds then
      (true, "Duration validation passed".toList)
    else (false, "Duration validation failed".toList)

/-- The `duration_validation_passed` value computed in the success branch
of `convert_audiobook`: `None` when either duration is unavailable. -/
def durationValidation (env : ConvertEnv) : Option Bool :=
  match env.source_total_duration with
  | none => none
  | some sd =>
    match env.converted_duration with
    | none => none
    | some cd => some (validate_conversion_duration sd cd 5).1

/-- `M4BConverter.convert_audiobook`. -/
def convert_audiobook (env : ConvertEnv) (book_name : List Char) :
    ConvertResult :=
  if !env.input_dir_exists then ⟨false, [], none⟩
  else if env.mp3_files.isEmpty then ⟨false, [], none⟩
  else
    let total_files := env.mp3_files.length
    let p0 : ProgressUpdate :=
      ⟨book_name, sConverting, some "Starting conversion...".toList, 0,
        total_files, 0⟩
    if !env.script_exists then ⟨false, [p0], none⟩
    else
      match env.run_result with
      | none =>
        ⟨false, [p0, ⟨book_name, sFailed, some "timeout or exception".toList,
          0, 0, 0⟩], none⟩
      | some return_code =>
        if return_code = 0 then
          if env.output_file_exists then
            ⟨true,
              [p0, ⟨book_name, sCompleted, none, 100, total_files, total_files⟩],
              some ⟨env.source_total_duration, env.converted_duration,
                durationValidation env⟩⟩
          else
            ⟨false, [p0, ⟨book_name, sFailed, some "Output file not created".toList,
              0, total_files, 0⟩], none⟩
        else
          ⟨false, [p0, ⟨book_name, sFailed,
            some "Process failed with code".toList, 0, total_files, 0⟩], none⟩

/-- C1: for every invocation on an existing input directory containing at
least one MP3 file (with the conversion script present and the child
process completing with some exit code), `convert_audiobook` reports
success if and only if the exit code is 0 and the declared output file
`{output_dir}/{book_name}.m4b` exists afterwards. -/
theorem convert_success_iff (env : ConvertEnv) (book_name : List Char)
    (return_code : Int)
    (hin : env.input_dir_exists = true) (hmp3 : env.mp3_files.isEmpty = false)
    (hscript : env.script_exists = true)
    (hrun : env.run_result = some return_code) :
    (convert_audiobook env book_name).success = true ↔
      (return_code = 0 ∧ env.output_file_exists = true) := by
  simp only [convert_audiobook, hin, hmp3, hscript, hrun]
  by_cases hrc : return_code = 0
  · rw [if_pos hrc]
    cases hout : env.output_file_exists <;> simp [hrc, hout]
  · rw [if_neg hrc]
    simp [hrc]

/-- Witness for `convert_success_iff`: exit code 0 with the output file
present is a success. -/
theorem convert_success_iff_witness :
    (convert_audiobook ⟨true, ["01.mp3".toList], true, some 0, true, none, none⟩
      "B".toList).success = true ↔ ((0 : Int) = 0 ∧ true = true) :=
  convert_success_iff ⟨true, ["01.mp3".toList], true, some 0, true, none, none⟩
    "B".toList 0 rfl (by decide) rfl rfl

/-- C10: when the tool exits 0 and the declared output exists, the result
is success regardless of the outcome of duration validation (failed,
passed, or not computable); the validation outcome is only recorded in the
job row's duration fields. -/
theorem duration_validation_never_gates (env : ConvertEnv) (book_name : List Char)
    (hin : env.input_dir_exists = true) (hmp3 : env.mp3_files.isEmpty = false)
    (hscript : env.script_exists = true) (hrun : env.run_result = some 0)
    (hout : env.output_file_exists = true) :
    (convert_audiobook env book_name).success = true ∧
    (convert_audiobook env book_name).duration_record
      = some ⟨env.source_total_duration, env.converted_duration,
          durationValidation env⟩ := by
  simp [convert_audiobook, hin, hmp3, hscript, hrun, hout]

/-- Witness for `duration_validation_never_gates`: source and converted
durations 100 and 50 — validation fails, the invocation still succeeds, and
the failed validation is recorded. -/
theorem duration_validation_never_gates_witness :
    (convert_audiobook
      ⟨true, ["01.mp3".toList], true, some 0, true, some 100, some 50⟩
      "B".toList).success = true ∧
    (convert_audiobook
      ⟨true, ["01.mp3".toList], true, some 0, true, some 100, some 50⟩
      "B".toList).duration_record
      = some ⟨some 100, some 50,
          durationValidation
            ⟨true, ["01.mp3".toList], true, some 0, true, some 100, some 50⟩⟩ ∧
    durationValidation
        ⟨true, ["01.mp3".toList], true, some 0, true, some 100, some 50⟩
      = some false :=
  ⟨(duration_validation_never_gates
      ⟨true, ["01.mp3".toList], true, some 0, true, some 100, some 50⟩
      "B".toList rfl (by decide) rfl rfl rfl).1,
    (duration_validation_never_gates
      ⟨true, ["01.mp3".toList], true, some 0, true, some 100, some 50⟩
      "B".toList rfl (by decide) rfl rfl rfl).2,
    by norm_num [durationValidation, validate_conversion_duration]⟩

/-! ## REST retry endpoint (src/api/main.py, `retry_conversion`)

The endpoint is embedded as a function from the path/body parameters and
the two database reads it performs (the tracking row, yielding the book
name, and the latest job row for that book) to the HTTP outcome and the
list of Redis events it publishes. -/

/-- The fields the endpoint reads from the latest `conversion_jobs` row:
`job[1]`, `job[6]` and `job[7]`, each nullable. -/
structure ApiJobRow where
  ygg_torrent_id : Option Nat
  attempts : Option Int
  max_attempts : Option Int

/-- The payload of the published `audiobook:retry_conversion` event. -/
structure RetryEventPayload where
  book_name : List Char
  ygg_torrent_id : Option Nat
  conversion_id : Nat
deriving DecidableEq

/-- The outcome of the endpoint: an HTTP error status or the 200 body's
book name, plus the published events. -/
structure ApiRetryResult where
  response : Except Nat (List Char)
  published : List (List Char × RetryEventPayload)

def chRetryConversion : List Char := "audiobook:retry_conversion".toList

/-- `retry_conversion` (the `/conversions/{id}/retry` handler): 404 when
the tracking row is missing; 400 before anything else when the job row
exists with `attempts >= max_attempts` (parsed with defaults 0 and 3) and
`force` is not set; otherwise publish the retry event. -/
def retry_conversion (conversion_id : Nat) (force : Bool)
    (tracking_book_name : Option (List Char)) (job : Option ApiJobRow) :
    ApiRetryResult :=
  match tracking_book_name with
  | none => ⟨.error 404, []⟩
  | some book_name =>
    let blocked :=
      match job with
      | some j => decide (j.attempts.getD 0 ≥ j.max_attempts.getD 3) && !force
      | none => false
    if blocked then ⟨.error 400, []⟩
    else
      ⟨.ok book_name,
        [(chRetryConversion,
          ⟨book_name,
            (match job with | some j => j.ygg_torrent_id | none => none),
            conversion_id⟩)]⟩

/-- C6: a retry request whose current job row has
`attempts >= max_attempts` without the force flag is rejected with HTTP 400
before anything else happens: no retry event is published (hence no restore
and no tool invocation can follow downstream). -/
theorem retry_rejected_before_publish (conversion_id : Nat) (force : Bool)
    (book_name : List Char) (j : ApiJobRow)
    (hatt : j.attempts.getD 0 ≥ j.max_attempts.getD 3) (hforce : force = false) :
    (retry_conversion conversion_id force (some book_name) (some j)).response
      = Except.error 400 ∧
    (retry_conversion conversion_id force (some book_name) (some j)).published
      = [] := by
  simp [retry_conversion, hatt, hforce]

/-- Witness for `retry_rejected_before_publish`: attempts 3 of max 3,
no force. -/
theorem retry_rejected_before_publish_witness :
    (retry_conversion 12 false (some "B".toList)
      (some ⟨some 4, some 3, some 3⟩)).response = Except.error 400 ∧
    (retry_conversion 12 false (some "B".toList)
      (some ⟨some 4, some 3, some 3⟩)).published = [] :=
  retry_rejected_before_publish 12 false "B".toList ⟨some 4, some 3, some 3⟩
    (by decide) rfl
